import Mathlib

/-!
Verification of the privacy-policy-analyzer batch orchestration core.

The definitions below are a shallow embedding of the repository's code:
* `truncate_policy`, `analyzeAux` embed `PolicyAnalyzer.analyze_policy`
  (src/analyzer.py): input-size guard, rate-limit retry loop, error-to-none
  mapping.
* `validate` embeds the strict result schema declared by the pydantic models
  in src/models.py (`extra = "forbid"`, closed enum sets, required fields).
* `shortRecord` / `failedRecord` / `successRecord`, `stepRecord`, `runLoop`
  and `process_batch` embed `PolicyAnalyzer.process_batch` (src/analyzer.py):
  short-circuit rule, per-record failure isolation, checkpointing and resume.
* `privacy_compliance_score` / `privacy_risk_level` embed the derived fields
  computed in src/summary_analyzer.py.

Python strings are modelled as `List Char`; a possibly-NaN CSV cell is an
`Option (List Char)`; the output CSV artifact is a `List FlatRecord` and
"the file does not exist" is `none`.
-/

namespace PPA

/-! ## Python string helpers -/

/-- Python `str.strip()`: remove leading and trailing whitespace. -/
def pyStrip (s : List Char) : List Char :=
  ((s.dropWhile Char.isWhitespace).reverse.dropWhile Char.isWhitespace).reverse

/-! ## Classifier client adapter: input-size guard (analyzer.py lines 105-109) -/

/-- `max_chars = 100000` from `PolicyAnalyzer.analyze_policy`. -/
def max_chars : Nat := 100000

/-- The literal truncation marker appended in `analyze_policy`. -/
def truncation_marker : List Char := "\n\n[TRUNCATED]".toList

/-- `if len(policy_text) > max_chars: policy_text = policy_text[:max_chars] + "\n\n[TRUNCATED]"`. -/
def truncate_policy (t : List Char) : List Char :=
  if t.length > max_chars then t.take max_chars ++ truncation_marker else t

/-! ## Result schema (models.py): closed enum sets -/

/-- Members of `COPPAConsentMethod` (models.py). -/
def coppaConsentMethods : List String :=
  ["signed_consent_form", "credit_debit_card", "toll_free_phone", "video_conference",
   "government_id", "knowledge_based_auth", "email_plus", "school_consent",
   "other", "not_specified", "not_applicable"]

/-- Members of `COPPAException` (models.py). -/
def coppaExceptions : List String :=
  ["school_authorization", "one_time_response", "internal_operations", "child_safety",
   "multiple_contact", "none_claimed", "not_applicable"]

/-- Members of `GDPRConsentMethod` (models.py). -/
def gdprConsentMethods : List String :=
  ["written_consent", "email_verification", "parent_account_linking",
   "video_phone_verification", "id_document", "reasonable_efforts",
   "other", "not_specified", "not_applicable"]

/-- Members of `GDPRLawfulBasis` (models.py). -/
def gdprLawfulBases : List String :=
  ["consent", "contract", "legal_obligation", "vital_interests", "public_task",
   "legitimate_interests", "preventive_counseling", "not_specified", "not_applicable"]

/-! ## Result schema: validated shapes (models.py) -/

/-- `ThirdPartyDetail` (models.py). -/
structure ThirdPartyDetail where
  name : String
  purpose : String
  data_shared : List String
deriving DecidableEq

/-- `COPPAAnalysis` (models.py); enum members are kept as their string values. -/
structure COPPAAnalysis where
  mentions_coppa : Bool
  claims_compliance : Bool
  consent_methods : List String
  consent_method_details : String
  exceptions_claimed : List String
  exception_details : String
  age_threshold_stated : Option Int
deriving DecidableEq

/-- `GDPRAnalysis` (models.py). -/
structure GDPRAnalysis where
  mentions_gdpr : Bool
  claims_compliance : Bool
  consent_methods : List String
  consent_method_details : String
  lawful_bases : List String
  lawful_basis_details : String
  age_threshold_stated : Option Int
deriving DecidableEq

/-- `PolicyAnalysisResult` (models.py), field order as declared. -/
structure PolicyAnalysisResult where
  data_collection_disclosure : Bool
  data_use_purpose_specification : Bool
  third_party_sharing_disclosure : Bool
  third_party_list : List String
  third_party_details : List ThirdPartyDetail
  parental_consent_mechanism : Bool
  coppa_ferpa_compliance_mention : Bool
  data_retention_policy : Bool
  user_data_rights : Bool
  data_security_encryption : Bool
  tracking_technologies_disclosure : Bool
  coppa_analysis : COPPAAnalysis
  gdpr_analysis : GDPRAnalysis
deriving DecidableEq

/-! ## Raw JSON values and strict validation -/

/-- JSON values, the shape of a parsed classifier response body. -/
inductive JValue where
  | jnull : JValue
  | jbool : Bool → JValue
  | jnum : Int → JValue
  | jstr : String → JValue
  | jarr : List JValue → JValue
  | jobj : List (String × JValue) → JValue

/-- Validation failures of the strict ("forbid") schema. -/
inductive SchemaViolation where
  | missingField : String → SchemaViolation
  | typeMismatch : String → SchemaViolation
  | extraField : String → SchemaViolation
  | invalidEnum : String → String → SchemaViolation

/-- Declared top-level keys of `PolicyAnalysisResult` (models.py order). -/
def resultKeys : List String :=
  ["data_collection_disclosure", "data_use_purpose_specification",
   "third_party_sharing_disclosure", "third_party_list", "third_party_details",
   "parental_consent_mechanism", "coppa_ferpa_compliance_mention",
   "data_retention_policy", "user_data_rights", "data_security_encryption",
   "tracking_technologies_disclosure", "coppa_analysis", "gdpr_analysis"]

/-- The 9 boolean indicator keys. -/
def boolKeys : List String :=
  ["data_collection_disclosure", "data_use_purpose_specification",
   "third_party_sharing_disclosure", "parental_consent_mechanism",
   "coppa_ferpa_compliance_mention", "data_retention_policy", "user_data_rights",
   "data_security_encryption", "tracking_technologies_disclosure"]

/-- Declared keys of `ThirdPartyDetail`. -/
def detailKeys : List String := ["name", "purpose", "data_shared"]

/-- Declared keys of `COPPAAnalysis`. -/
def coppaKeys : List String :=
  ["mentions_coppa", "claims_compliance", "consent_methods", "consent_method_details",
   "exceptions_claimed", "exception_details", "age_threshold_stated"]

/-- Declared keys of `GDPRAnalysis`. -/
def gdprKeys : List String :=
  ["mentions_gdpr", "claims_compliance", "consent_methods", "consent_method_details",
   "lawful_bases", "lawful_basis_details", "age_threshold_stated"]

/-- First value bound to key `k` in a JSON object's field list. -/
def lookupField (fs : List (String × JValue)) (k : String) : Option JValue :=
  (fs.find? (fun p => p.1 == k)).map Prod.snd

def getField (fs : List (String × JValue)) (k : String) : Except SchemaViolation JValue :=
  match lookupField fs k with
  | none => .error (.missingField k)
  | some v => .ok v

def getBool (fs : List (String × JValue)) (k : String) : Except SchemaViolation Bool :=
  match lookupField fs k with
  | none => .error (.missingField k)
  | some (.jbool b) => .ok b
  | some _ => .error (.typeMismatch k)

def getStr (fs : List (String × JValue)) (k : String) : Except SchemaViolation String :=
  match lookupField fs k with
  | none => .error (.missingField k)
  | some (.jstr s) => .ok s
  | some _ => .error (.typeMismatch k)

def getArr (fs : List (String × JValue)) (k : String) : Except SchemaViolation (List JValue) :=
  match lookupField fs k with
  | none => .error (.missingField k)
  | some (.jarr xs) => .ok xs
  | some _ => .error (.typeMismatch k)

/-- `Optional[int]` field: required key whose value may be JSON null. -/
def getOptInt (fs : List (String × JValue)) (k : String) : Except SchemaViolation (Option Int) :=
  match lookupField fs k with
  | none => .error (.missingField k)
  | some .jnull => .ok none
  | some (.jnum n) => .ok (some n)
  | some _ => .error (.typeMismatch k)

/-- Check every element is a string; used for `List[str]` fields. -/
def checkStrList (k : String) : List JValue → Except SchemaViolation (List String)
  | [] => .ok []
  | .jstr s :: rest => (checkStrList k rest).map (fun ys => s :: ys)
  | _ :: _ => .error (.typeMismatch k)

/-- Check every element is a string belonging to the closed enum set. -/
def checkEnumList (k : String) (allowed : List String) :
    List JValue → Except SchemaViolation (List String)
  | [] => .ok []
  | .jstr s :: rest =>
      if allowed.contains s then (checkEnumList k allowed rest).map (fun ys => s :: ys)
      else .error (.invalidEnum k s)
  | _ :: _ => .error (.typeMismatch k)

def getStrList (fs : List (String × JValue)) (k : String) :
    Except SchemaViolation (List String) :=
  getArr fs k >>= checkStrList k

def getEnumList (fs : List (String × JValue)) (k : String) (allowed : List String) :
    Except SchemaViolation (List String) :=
  getArr fs k >>= checkEnumList k allowed

/-- Strict validation of one `ThirdPartyDetail` object. -/
def validateDetail (v : JValue) : Except SchemaViolation ThirdPartyDetail :=
  match v with
  | .jobj fs =>
    match fs.find? (fun p => !(detailKeys.contains p.1)) with
    | some p => .error (.extraField p.1)
    | none => do
      let n ← getStr fs "name"
      let pu ← getStr fs "purpose"
      let ds ← getStrList fs "data_shared"
      .ok ⟨n, pu, ds⟩
  | _ => .error (.typeMismatch "third_party_details")

def checkDetailList : List JValue → Except SchemaViolation (List ThirdPartyDetail)
  | [] => .ok []
  | v :: rest => do
      let d ← validateDetail v
      let ds ← checkDetailList rest
      .ok (d :: ds)

/-- Strict validation of the `coppa_analysis` sub-object. -/
def validateCOPPA (v : JValue) : Except SchemaViolation COPPAAnalysis :=
  match v with
  | .jobj fs =>
    match fs.find? (fun p => !(coppaKeys.contains p.1)) with
    | some p => .error (.extraField p.1)
    | none => do
      let m ← getBool fs "mentions_coppa"
      let cc ← getBool fs "claims_compliance"
      let cm ← getEnumList fs "consent_methods" coppaConsentMethods
      let cmd ← getStr fs "consent_method_details"
      let ex ← getEnumList fs "exceptions_claimed" coppaExceptions
      let exd ← getStr fs "exception_details"
      let age ← getOptInt fs "age_threshold_stated"
      .ok ⟨m, cc, cm, cmd, ex, exd, age⟩
  | _ => .error (.typeMismatch "coppa_analysis")

/-- Strict validation of the `gdpr_analysis` sub-object. -/
def validateGDPR (v : JValue) : Except SchemaViolation GDPRAnalysis :=
  match v with
  | .jobj fs =>
    match fs.find? (fun p => !(gdprKeys.contains p.1)) with
    | some p => .error (.extraField p.1)
    | none => do
      let m ← getBool fs "mentions_gdpr"
      let cc ← getBool fs "claims_compliance"
      let cm ← getEnumList fs "consent_methods" gdprConsentMethods
      let cmd ← getStr fs "consent_method_details"
      let lb ← getEnumList fs "lawful_bases" gdprLawfulBases
      let lbd ← getStr fs "lawful_basis_details"
      let age ← getOptInt fs "age_threshold_stated"
      .ok ⟨m, cc, cm, cmd, lb, lbd, age⟩
  | _ => .error (.typeMismatch "gdpr_analysis")

/-- Strict ("forbid") validation of a classifier response against
`PolicyAnalysisResult`: required fields, exact types, no undeclared top-level
fields, enum values inside the closed sets. -/
def validate (v : JValue) : Except SchemaViolation PolicyAnalysisResult :=
  match v with
  | .jobj fs =>
    match fs.find? (fun p => !(resultKeys.contains p.1)) with
    | some p => .error (.extraField p.1)
    | none => do
      let b1 ← getBool fs "data_collection_disclosure"
      let b2 ← getBool fs "data_use_purpose_specification"
      let b3 ← getBool fs "third_party_sharing_disclosure"
      let tpl ← getStrList fs "third_party_list"
      let tpdv ← getField fs "third_party_details"
      let tpd ← (match tpdv with
        | .jarr xs => checkDetailList xs
        | _ => .error (.typeMismatch "third_party_details"))
      let b4 ← getBool fs "parental_consent_mechanism"
      let b5 ← getBool fs "coppa_ferpa_compliance_mention"
      let b6 ← getBool fs "data_retention_policy"
      let b7 ← getBool fs "user_data_rights"
      let b8 ← getBool fs "data_security_encryption"
      let b9 ← getBool fs "tracking_technologies_disclosure"
      let cv ← getField fs "coppa_analysis"
      let ca ← validateCOPPA cv
      let gv ← getField fs "gdpr_analysis"
      let ga ← validateGDPR gv
      .ok ⟨b1, b2, b3, tpl, tpd, b4, b5, b6, b7, b8, b9, ca, ga⟩
  | _ => .error (.typeMismatch "root")

/-! ## Raw dict view of a parsed response

`process_batch` reads the parsed JSON dict with `.get(key, default)`; a `none`
field models an absent key. -/

structure RawThirdPartyDetail where
  name : Option String := none
  purpose : Option String := none
  data_shared : Option (List String) := none
deriving DecidableEq

structure RawCoppaAnalysis where
  mentions_coppa : Option Bool := none
  claims_compliance : Option Bool := none
  consent_methods : Option (List String) := none
  consent_method_details : Option String := none
  exceptions_claimed : Option (List String) := none
  exception_details : Option String := none
  age_threshold_stated : Option String := none
deriving DecidableEq

structure RawGdprAnalysis where
  mentions_gdpr : Option Bool := none
  claims_compliance : Option Bool := none
  consent_methods : Option (List String) := none
  consent_method_details : Option String := none
  lawful_bases : Option (List String) := none
  lawful_basis_details : Option String := none
  age_threshold_stated : Option String := none
deriving DecidableEq

structure RawAnalysis where
  data_collection_disclosure : Option Bool := none
  data_use_purpose_specification : Option Bool := none
  third_party_sharing_disclosure : Option Bool := none
  third_party_list : Option (List String) := none
  third_party_details : Option (List RawThirdPartyDetail) := none
  parental_consent_mechanism : Option Bool := none
  coppa_ferpa_compliance_mention : Option Bool := none
  data_retention_policy : Option Bool := none
  user_data_rights : Option Bool := none
  data_security_encryption : Option Bool := none
  tracking_technologies_disclosure : Option Bool := none
  coppa_analysis : Option RawCoppaAnalysis := none
  gdpr_analysis : Option RawGdprAnalysis := none
deriving DecidableEq

/-- The empty dict `{}` used as the default for `analysis.get("coppa_analysis", {})`. -/
def RawCoppaAnalysis.empty : RawCoppaAnalysis := {}

/-- The empty dict `{}` used as the default for `analysis.get("gdpr_analysis", {})`. -/
def RawGdprAnalysis.empty : RawGdprAnalysis := {}

/-- A `RawAnalysis` with every key absent. -/
def RawAnalysis.empty : RawAnalysis := {}

/-- Dict view of a validated detail (every declared key present). -/
def rawOfDetail (d : ThirdPartyDetail) : RawThirdPartyDetail :=
  ⟨some d.name, some d.purpose, some d.data_shared⟩

/-- Dict view of a validated `COPPAAnalysis` (an integer age threshold is
rendered as its decimal string, a JSON-null one as the empty cell). -/
def rawOfCoppa (c : COPPAAnalysis) : RawCoppaAnalysis :=
  ⟨some c.mentions_coppa, some c.claims_compliance, some c.consent_methods,
   some c.consent_method_details, some c.exceptions_claimed, some c.exception_details,
   some ((c.age_threshold_stated.map toString).getD "")⟩

/-- Dict view of a validated `GDPRAnalysis`. -/
def rawOfGdpr (g : GDPRAnalysis) : RawGdprAnalysis :=
  ⟨some g.mentions_gdpr, some g.claims_compliance, some g.consent_methods,
   some g.consent_method_details, some g.lawful_bases, some g.lawful_basis_details,
   some ((g.age_threshold_stated.map toString).getD "")⟩

/-- Dict view of a validated `PolicyAnalysisResult`. -/
def rawOfResult (r : PolicyAnalysisResult) : RawAnalysis :=
  ⟨some r.data_collection_disclosure, some r.data_use_purpose_specification,
   some r.third_party_sharing_disclosure, some r.third_party_list,
   some (r.third_party_details.map rawOfDetail), some r.parental_consent_mechanism,
   some r.coppa_ferpa_compliance_mention, some r.data_retention_policy,
   some r.user_data_rights, some r.data_security_encryption,
   some r.tracking_technologies_disclosure, some (rawOfCoppa r.coppa_analysis),
   some (rawOfGdpr r.gdpr_analysis)⟩

/-! ## Classifier client adapter (analyzer.py lines 94-146) -/

/-- One outcome of the opaque external classifier call:
rate-limit signal, any other exception, or a response body. -/
inductive ClassifierOutcome where
  | rateLimited : ClassifierOutcome
  | exn : ClassifierOutcome
  | response : JValue → ClassifierOutcome

/-- `time.sleep(60)` cool-down on a rate-limit signal. -/
def cooldown : Nat := 60

/-- Embedding of `analyze_policy`'s retry loop.  The environment `env`
gives the external classifier's outcome for each attempt number and
dispatched text.  Each entry re-applies the input-size guard, exactly as the
recursive Python call does.  The result carries the total time slept; the
outer `none` means the fuel ran out, i.e. the unbounded Python recursion has
not yet terminated within `fuel` attempts. -/
def analyzeAux (env : Nat → List Char → ClassifierOutcome) :
    Nat → List Char → Nat → Nat → Option (Option RawAnalysis × Nat)
  | 0, _, _, _ => none
  | fuel + 1, text, attempt, slept =>
    let t := truncate_policy text
    match env attempt t with
    | .rateLimited => analyzeAux env fuel t (attempt + 1) (slept + cooldown)
    | .exn => some (none, slept)
    | .response body =>
      match validate body with
      | .ok r => some (some (rawOfResult r), slept)
      | .error _ => some (none, slept)

/-- `analyze_policy(policy_text, app_id)`: start at attempt 0 with no sleep. -/
def analyze_policy (env : Nat → List Char → ClassifierOutcome) (fuel : Nat)
    (text : List Char) : Option (Option RawAnalysis × Nat) :=
  analyzeAux env fuel text 0 0

/-! ## Flattening (analyzer.py lines 22-73 and 220-268) -/

/-- Flat COPPA columns produced by `_extract_coppa_fields`. -/
structure CoppaFlat where
  coppa_mentions : Bool
  coppa_claims_compliance : Bool
  coppa_consent_methods : String
  coppa_consent_details : String
  coppa_exceptions : String
  coppa_exception_details : String
  coppa_age_threshold : String
deriving DecidableEq

/-- Flat GDPR columns produced by `_extract_gdpr_fields`. -/
structure GdprFlat where
  gdpr_mentions : Bool
  gdpr_claims_compliance : Bool
  gdpr_consent_methods : String
  gdpr_consent_details : String
  gdpr_lawful_bases : String
  gdpr_lawful_basis_details : String
  gdpr_age_threshold : String
deriving DecidableEq

/-- `_get_empty_coppa_fields()`. -/
def empty_coppa_fields : CoppaFlat := ⟨false, false, "", "", "", "", ""⟩

/-- `_get_empty_gdpr_fields()`. -/
def empty_gdpr_fields : GdprFlat := ⟨false, false, "", "", "", "", ""⟩

/-- `_extract_coppa_fields(analysis)`: read `analysis.get("coppa_analysis", {})`
with per-key defaults and `"; "`-joins. -/
def extract_coppa_fields (a : RawAnalysis) : CoppaFlat :=
  let coppa := a.coppa_analysis.getD RawCoppaAnalysis.empty
  ⟨coppa.mentions_coppa.getD false,
   coppa.claims_compliance.getD false,
   String.intercalate "; " (coppa.consent_methods.getD []),
   coppa.consent_method_details.getD "",
   String.intercalate "; " (coppa.exceptions_claimed.getD []),
   coppa.exception_details.getD "",
   coppa.age_threshold_stated.getD ""⟩

/-- `_extract_gdpr_fields(analysis)`. -/
def extract_gdpr_fields (a : RawAnalysis) : GdprFlat :=
  let gdpr := a.gdpr_analysis.getD RawGdprAnalysis.empty
  ⟨gdpr.mentions_gdpr.getD false,
   gdpr.claims_compliance.getD false,
   String.intercalate "; " (gdpr.consent_methods.getD []),
   gdpr.consent_method_details.getD "",
   String.intercalate "; " (gdpr.lawful_bases.getD []),
   gdpr.lawful_basis_details.getD "",
   gdpr.age_threshold_stated.getD ""⟩

/-- The per-third-party formatted string
`f"{name} ({purpose}): {data_str}"` built in `process_batch`. -/
def formatDetail (d : RawThirdPartyDetail) : String :=
  let name := d.name.getD "Unknown"
  let purpose := d.purpose.getD "Not specified"
  let dataTypes := d.data_shared.getD []
  let dataStr := if dataTypes.isEmpty then "Not specified"
                 else String.intercalate ", " dataTypes
  name ++ " (" ++ purpose ++ "): " ++ dataStr

/-- One output CSV row.  The COPPA/GDPR columns are grouped in sub-structures
mirroring the `**_extract_coppa_fields(...)` / `**_extract_gdpr_fields(...)`
dict merges. -/
structure FlatRecord where
  app_id : String
  app_name : String
  error : Option String
  data_collection_disclosure : Bool
  data_use_purpose_specification : Bool
  third_party_sharing_disclosure : Bool
  third_party_list : String
  third_party_data_shared : String
  parental_consent_mechanism : Bool
  coppa_ferpa_compliance_mention : Bool
  data_retention_policy : Bool
  user_data_rights : Bool
  data_security_encryption : Bool
  tracking_technologies_disclosure : Bool
  coppa : CoppaFlat
  gdpr : GdprFlat
deriving DecidableEq

/-! ## Batch runner (analyzer.py lines 148-295) -/

/-- One input CSV row; a `none` field models a missing column or a NaN cell. -/
structure InputRow where
  app_id : Option String := none
  app_name : Option String := none
  policy_text : Option (List Char) := none

/-- `row.get(id_column, f"app_{idx}")`. -/
def rowAppId (idx : Nat) (row : InputRow) : String :=
  row.app_id.getD ("app_" ++ toString idx)

/-- `row.get(name_column, "") if name_column in row else ""`. -/
def rowAppName (row : InputRow) : String :=
  row.app_name.getD ""

/-- `pd.isna(policy_text) or len(str(policy_text).strip()) < 100`. -/
def isShortPolicy : Option (List Char) → Bool
  | none => true
  | some t => decide ((pyStrip t).length < 100)

/-- The synthesized record for an empty/short policy (analyzer.py 198-215). -/
def shortRecord (idx : Nat) (row : InputRow) : FlatRecord :=
  { app_id := rowAppId idx row
    app_name := rowAppName row
    error := some "empty_or_short_policy"
    data_collection_disclosure := false
    data_use_purpose_specification := false
    third_party_sharing_disclosure := false
    third_party_list := ""
    third_party_data_shared := ""
    parental_consent_mechanism := false
    coppa_ferpa_compliance_mention := false
    data_retention_policy := false
    user_data_rights := false
    data_security_encryption := false
    tracking_technologies_disclosure := false
    coppa := empty_coppa_fields
    gdpr := empty_gdpr_fields }

/-- The synthesized record when the adapter returned no result (analyzer.py 251-268). -/
def failedRecord (idx : Nat) (row : InputRow) : FlatRecord :=
  { shortRecord idx row with error := some "analysis_failed" }

/-- The flattened record for a successful analysis (analyzer.py 220-249). -/
def successRecord (idx : Nat) (row : InputRow) (a : RawAnalysis) : FlatRecord :=
  let third_party_list := a.third_party_list.getD []
  let third_party_details := a.third_party_details.getD []
  let third_party_data_shared := third_party_details.map formatDetail
  { app_id := rowAppId idx row
    app_name := rowAppName row
    error := none
    data_collection_disclosure := a.data_collection_disclosure.getD false
    data_use_purpose_specification := a.data_use_purpose_specification.getD false
    third_party_sharing_disclosure := a.third_party_sharing_disclosure.getD false
    third_party_list :=
      if third_party_list.isEmpty then "" else String.intercalate "; " third_party_list
    third_party_data_shared :=
      if third_party_data_shared.isEmpty then ""
      else String.intercalate " | " third_party_data_shared
    parental_consent_mechanism := a.parental_consent_mechanism.getD false
    coppa_ferpa_compliance_mention := a.coppa_ferpa_compliance_mention.getD false
    data_retention_policy := a.data_retention_policy.getD false
    user_data_rights := a.user_data_rights.getD false
    data_security_encryption := a.data_security_encryption.getD false
    tracking_technologies_disclosure := a.tracking_technologies_disclosure.getD false
    coppa := extract_coppa_fields a
    gdpr := extract_gdpr_fields a }

/-- The per-record call into the classifier adapter, abstracted: given the
record index and row, either a parsed analysis dict or `none` (failure). -/
abbrev Classify := Nat → InputRow → Option RawAnalysis

/-- The record appended for one processed input row. -/
def recordFor (classify : Classify) (idx : Nat) (row : InputRow) : FlatRecord :=
  if isShortPolicy row.policy_text then shortRecord idx row
  else
    match classify idx row with
    | some a => successRecord idx row a
    | none => failedRecord idx row

/-- Runner state: in-memory accumulator, the output file contents (`none` =
file absent), and the log of intermediate checkpoint writes
`(index, snapshot written)`. -/
structure RunState where
  results : List FlatRecord
  artifact : Option (List FlatRecord)
  writes : List (Nat × List FlatRecord)

/-- One loop iteration of `process_batch`: hard-skip below the resume offset,
otherwise append the record and checkpoint when
`idx % 50 == 0 or idx == total_policies - 1`. -/
def stepRecord (classify : Classify) (total resume : Nat) (st : RunState)
    (idx : Nat) (row : InputRow) : RunState :=
  if idx < resume then st
  else if idx % 50 == 0 || idx == total - 1 then
    { results := st.results ++ [recordFor classify idx row],
      artifact := some (st.results ++ [recordFor classify idx row]),
      writes := st.writes ++ [(idx, st.results ++ [recordFor classify idx row])] }
  else
    { st with results := st.results ++ [recordFor classify idx row] }

/-- The `for idx, row in df.iterrows()` loop. -/
def runLoop (classify : Classify) (total resume : Nat) :
    Nat → List InputRow → RunState → RunState
  | _, [], st => st
  | idx, row :: rest, st =>
      runLoop classify total resume (idx + 1) rest (stepRecord classify total resume st idx row)

/-- `process_batch`: seed the accumulator from the existing artifact when it
exists and `resume_from > 0`, run the loop from index 0, then perform the
final unconditional save. -/
def process_batch (classify : Classify) (rows : List InputRow) (resume_from : Nat)
    (artifact0 : Option (List FlatRecord)) : RunState :=
  let total := rows.length
  let seed : List FlatRecord :=
    if artifact0.isSome && decide (0 < resume_from) then artifact0.getD [] else []
  let st := runLoop classify total resume_from 0 rows ⟨seed, artifact0, []⟩
  { st with artifact := some st.results }

/-! ## Derived score and risk level (summary_analyzer.py lines 93-102) -/

/-- The 9 boolean indicators. -/
structure Indicators where
  data_collection_disclosure : Bool
  data_use_purpose_specification : Bool
  third_party_sharing_disclosure : Bool
  parental_consent_mechanism : Bool
  coppa_ferpa_compliance_mention : Bool
  data_retention_policy : Bool
  user_data_rights : Bool
  data_security_encryption : Bool
  tracking_technologies_disclosure : Bool
deriving DecidableEq

/-- `score = sum(results.values())`. -/
def privacy_compliance_score (b : Indicators) : Nat :=
  b.data_collection_disclosure.toNat + b.data_use_purpose_specification.toNat +
  b.third_party_sharing_disclosure.toNat + b.parental_consent_mechanism.toNat +
  b.coppa_ferpa_compliance_mention.toNat + b.data_retention_policy.toNat +
  b.user_data_rights.toNat + b.data_security_encryption.toNat +
  b.tracking_technologies_disclosure.toNat

/-- `if score >= 7: "LOW" elif score >= 4: "MEDIUM" else: "HIGH"`. -/
def privacy_risk_level (score : Nat) : String :=
  if score ≥ 7 then "LOW" else if score ≥ 4 then "MEDIUM" else "HIGH"

/-- Riskiness order of the three levels: larger is riskier. -/
def riskRank (s : String) : Nat :=
  if s = "LOW" then 0 else if s = "MEDIUM" then 1 else 2

/-- Pointwise order on indicator tuples: `b'` has every indicator of `b`. -/
def indicatorsLe (b b' : Indicators) : Prop :=
  (b.data_collection_disclosure = true → b'.data_collection_disclosure = true) ∧
  (b.data_use_purpose_specification = true → b'.data_use_purpose_specification = true) ∧
  (b.third_party_sharing_disclosure = true → b'.third_party_sharing_disclosure = true) ∧
  (b.parental_consent_mechanism = true → b'.parental_consent_mechanism = true) ∧
  (b.coppa_ferpa_compliance_mention = true → b'.coppa_ferpa_compliance_mention = true) ∧
  (b.data_retention_policy = true → b'.data_retention_policy = true) ∧
  (b.user_data_rights = true → b'.user_data_rights = true) ∧
  (b.data_security_encryption = true → b'.data_security_encryption = true) ∧
  (b.tracking_technologies_disclosure = true → b'.tracking_technologies_disclosure = true)

instance (b b' : Indicators) : Decidable (indicatorsLe b b') := by
  unfold indicatorsLe; infer_instance

/-- The 9 indicators as a list, in the order they are summed. -/
def indicatorList (b : Indicators) : List Bool :=
  [b.data_collection_disclosure, b.data_use_purpose_specification,
   b.third_party_sharing_disclosure, b.parental_consent_mechanism,
   b.coppa_ferpa_compliance_mention, b.data_retention_policy,
   b.user_data_rights, b.data_security_encryption,
   b.tracking_technologies_disclosure]

/-! ## Loop characterization -/

/-- Records emitted by the loop from index `idx` on, skipping indices below
the resume offset. -/
def outputsFrom (c : Classify) (resume : Nat) : Nat → List InputRow → List FlatRecord
  | _, [] => []
  | idx, row :: rest =>
      (if idx < resume then [] else [recordFor c idx row]) ++
        outputsFrom c resume (idx + 1) rest

/-- Records emitted when nothing is skipped. -/
def outputsAll (c : Classify) : Nat → List InputRow → List FlatRecord
  | _, [] => []
  | idx, row :: rest => recordFor c idx row :: outputsAll c (idx + 1) rest

/-- Indices at which the loop checkpoints, starting at `idx` for `n` records. -/
def saveIdxs (total : Nat) : Nat → Nat → List Nat
  | _, 0 => []
  | idx, n + 1 =>
      (if idx % 50 == 0 || idx == total - 1 then [idx] else []) ++
        saveIdxs total (idx + 1) n

/-! ## Concrete inputs used by witnesses -/

/-- An input row whose policy text is 99 non-whitespace characters. -/
def row99 : InputRow := ⟨some "app99", some "App 99", some (List.replicate 99 'a')⟩

/-- An input row whose policy text is 100 non-whitespace characters. -/
def row100 : InputRow := ⟨some "app100", some "App 100", some (List.replicate 100 'a')⟩

/-- The `coppa_analysis` sub-object of a well-formed classifier response. -/
def goodCoppa : List (String × JValue) :=
  [("mentions_coppa", .jbool true), ("claims_compliance", .jbool false),
   ("consent_methods", .jarr [.jstr "email_plus"]),
   ("consent_method_details", .jstr "Email plus"),
   ("exceptions_claimed", .jarr []),
   ("exception_details", .jstr ""),
   ("age_threshold_stated", .jnum 13)]

/-- The `gdpr_analysis` sub-object of a well-formed classifier response. -/
def goodGdpr : List (String × JValue) :=
  [("mentions_gdpr", .jbool false), ("claims_compliance", .jbool false),
   ("consent_methods", .jarr []), ("consent_method_details", .jstr ""),
   ("lawful_bases", .jarr [.jstr "consent"]), ("lawful_basis_details", .jstr ""),
   ("age_threshold_stated", .jnull)]

/-- A well-formed classifier response body. -/
def goodFields : List (String × JValue) :=
  [("data_collection_disclosure", .jbool true),
   ("data_use_purpose_specification", .jbool true),
   ("third_party_sharing_disclosure", .jbool false),
   ("third_party_list", .jarr [.jstr "Google Analytics"]),
   ("third_party_details", .jarr [.jobj
      [("name", .jstr "Google Analytics"), ("purpose", .jstr "analytics"),
       ("data_shared", .jarr [.jstr "usage data"])]]),
   ("parental_consent_mechanism", .jbool true),
   ("coppa_ferpa_compliance_mention", .jbool true),
   ("data_retention_policy", .jbool false),
   ("user_data_rights", .jbool true),
   ("data_security_encryption", .jbool true),
   ("tracking_technologies_disclosure", .jbool false),
   ("coppa_analysis", .jobj goodCoppa),
   ("gdpr_analysis", .jobj goodGdpr)]

/-- The validated result corresponding to `goodFields`. -/
def goodResult : PolicyAnalysisResult :=
  ⟨true, true, false, ["Google Analytics"],
   [⟨"Google Analytics", "analytics", ["usage data"]⟩],
   true, true, false, true, true, false,
   ⟨true, false, ["email_plus"], "Email plus", [], "", some 13⟩,
   ⟨false, false, [], "", ["consent"], "", none⟩⟩

/-- `goodFields` plus one undeclared top-level field. -/
def extraFieldBody : List (String × JValue) :=
  goodFields ++ [("privacy_compliance_score", .jnum 9)]

/-- A `coppa_analysis` sub-object carrying an enum value outside the closed
`COPPAConsentMethod` set. -/
def badEnumCoppa : List (String × JValue) :=
  [("mentions_coppa", .jbool true), ("claims_compliance", .jbool false),
   ("consent_methods", .jarr [.jstr "carrier_pigeon"]),
   ("consent_method_details", .jstr ""),
   ("exceptions_claimed", .jarr []),
   ("exception_details", .jstr ""),
   ("age_threshold_stated", .jnull)]

/-- A response body whose only flaw is the out-of-set enum value nested in
`coppa_analysis.consent_methods`. -/
def badEnumBody : List (String × JValue) :=
  [("data_collection_disclosure", .jbool true),
   ("data_use_purpose_specification", .jbool true),
   ("third_party_sharing_disclosure", .jbool false),
   ("third_party_list", .jarr []),
   ("third_party_details", .jarr []),
   ("parental_consent_mechanism", .jbool true),
   ("coppa_ferpa_compliance_mention", .jbool true),
   ("data_retention_policy", .jbool false),
   ("user_data_rights", .jbool true),
   ("data_security_encryption", .jbool true),
   ("tracking_technologies_disclosure", .jbool false),
   ("coppa_analysis", .jobj badEnumCoppa),
   ("gdpr_analysis", .jobj goodGdpr)]

/-- A classifier environment that rate-limits exactly twice, then answers
with the well-formed body. -/
def envTwoLimits : Nat → List Char → ClassifierOutcome :=
  fun attempt _ => if attempt < 2 then .rateLimited else .response (.jobj goodFields)

/-! ## Helper lemmas -/

lemma outputsFrom_cons (c : Classify) (resume idx : Nat) (row : InputRow)
    (rest : List InputRow) :
    outputsFrom c resume idx (row :: rest)
      = (if idx < resume then [] else [recordFor c idx row]) ++
          outputsFrom c resume (idx + 1) rest := rfl

lemma saveIdxs_succ (total idx n : Nat) :
    saveIdxs total idx (n + 1)
      = (if idx % 50 == 0 || idx == total - 1 then [idx] else []) ++
          saveIdxs total (idx + 1) n := rfl

lemma outputsAll_length (c : Classify) :
    ∀ (rows : List InputRow) (idx : Nat), (outputsAll c idx rows).length = rows.length := by
  intro rows
  induction rows with
  | nil => intro idx; rfl
  | cons row rest ih => intro idx; simp [outputsAll, ih]

lemma outputsFrom_ge (c : Classify) (resume : Nat) :
    ∀ (rows : List InputRow) (idx : Nat), resume ≤ idx →
      outputsFrom c resume idx rows = outputsAll c idx rows := by
  intro rows
  induction rows with
  | nil => intro idx _; rfl
  | cons row rest ih =>
    intro idx h
    unfold outputsFrom outputsAll
    rw [if_neg (by omega), ih (idx + 1) (by omega)]
    rfl

lemma outputsFrom_drop (c : Classify) (resume : Nat) :
    ∀ (rows : List InputRow) (idx : Nat), idx ≤ resume →
      outputsFrom c resume idx rows = outputsAll c resume (rows.drop (resume - idx)) := by
  intro rows
  induction rows with
  | nil => intro idx _; simp [outputsFrom, outputsAll]
  | cons row rest ih =>
    intro idx h
    unfold outputsFrom
    by_cases hlt : idx < resume
    · rw [if_pos hlt]
      simp only [List.nil_append]
      rw [ih (idx + 1) (by omega)]
      have hs : resume - idx = (resume - (idx + 1)) + 1 := by omega
      rw [hs, List.drop_succ_cons]
    · have heq : idx = resume := by omega
      subst heq
      rw [if_neg hlt]
      rw [outputsFrom_ge c idx rest (idx + 1) (by omega)]
      simp [outputsAll, Nat.sub_self]

lemma runLoop_results (c : Classify) (total resume : Nat) :
    ∀ (rows : List InputRow) (idx : Nat) (st : RunState),
      (runLoop c total resume idx rows st).results
        = st.results ++ outputsFrom c resume idx rows := by
  intro rows
  induction rows with
  | nil => intro idx st; simp [runLoop, outputsFrom]
  | cons row rest ih =>
    intro idx st
    show (runLoop c total resume (idx + 1) rest
      (stepRecord c total resume st idx row)).results = _
    rw [ih, outputsFrom_cons]
    unfold stepRecord
    split_ifs with h1 h2 <;> simp

lemma runLoop_skipAll (c : Classify) (total resume : Nat) :
    ∀ (rows : List InputRow) (idx : Nat) (st : RunState),
      idx + rows.length ≤ resume → runLoop c total resume idx rows st = st := by
  intro rows
  induction rows with
  | nil => intro idx st _; rfl
  | cons row rest ih =>
    intro idx st h
    simp only [List.length_cons] at h
    show runLoop c total resume (idx + 1) rest (stepRecord c total resume st idx row) = st
    have hstep : stepRecord c total resume st idx row = st := by
      unfold stepRecord
      rw [if_pos (by omega)]
    rw [hstep]
    exact ih (idx + 1) st (by omega)

lemma runLoop_writes_fst (c : Classify) (total : Nat) :
    ∀ (rows : List InputRow) (idx : Nat) (st : RunState),
      ((runLoop c total 0 idx rows st).writes).map Prod.fst
        = (st.writes.map Prod.fst) ++ saveIdxs total idx rows.length := by
  intro rows
  induction rows with
  | nil => intro idx st; simp [runLoop, saveIdxs]
  | cons row rest ih =>
    intro idx st
    show ((runLoop c total 0 (idx + 1) rest
      (stepRecord c total 0 st idx row)).writes).map Prod.fst = _
    rw [ih]
    show _ = st.writes.map Prod.fst ++ saveIdxs total idx (rest.length + 1)
    rw [saveIdxs_succ]
    unfold stepRecord
    rw [if_neg (Nat.not_lt_zero idx)]
    split_ifs with h <;> simp

lemma mem_saveIdxs (total : Nat) :
    ∀ (n idx i : Nat),
      i ∈ saveIdxs total idx n ↔
        (idx ≤ i ∧ i < idx + n ∧ (i % 50 = 0 ∨ i = total - 1)) := by
  intro n
  induction n with
  | zero => intro idx i; simp [saveIdxs]; omega
  | succ m ih =>
    intro idx i
    unfold saveIdxs
    split_ifs with h
    · simp only [List.singleton_append, List.mem_cons, ih]
      simp only [Bool.or_eq_true, beq_iff_eq] at h
      omega
    · simp only [List.nil_append, ih]
      simp only [Bool.or_eq_true, beq_iff_eq, not_or] at h
      omega

lemma runLoop_writes_snap (c : Classify) (total : Nat) :
    ∀ (rows : List InputRow) (idx : Nat) (st : RunState),
      st.results.length = idx →
      (∀ w ∈ st.writes, w.2.length = w.1 + 1 ∧ ∃ rest, w.2 ++ rest = st.results) →
      ((runLoop c total 0 idx rows st).results.length = idx + rows.length ∧
        ∀ w ∈ (runLoop c total 0 idx rows st).writes,
          w.2.length = w.1 + 1 ∧
            ∃ rest, w.2 ++ rest = (runLoop c total 0 idx rows st).results) := by
  intro rows
  induction rows with
  | nil =>
    intro idx st hlen hw
    exact ⟨by simpa using hlen, hw⟩
  | cons row rest ih =>
    intro idx st hlen hw
    simp only [runLoop]
    have hres' : (stepRecord c total 0 st idx row).results
        = st.results ++ [recordFor c idx row] := by
      unfold stepRecord
      rw [if_neg (Nat.not_lt_zero idx)]
      split_ifs <;> rfl
    have hlen' : (stepRecord c total 0 st idx row).results.length = idx + 1 := by
      rw [hres', List.length_append, hlen]
      rfl
    have hw' : ∀ w ∈ (stepRecord c total 0 st idx row).writes,
        w.2.length = w.1 + 1 ∧
          ∃ rest', w.2 ++ rest' = (stepRecord c total 0 st idx row).results := by
      intro w hwmem
      rw [hres']
      unfold stepRecord at hwmem
      rw [if_neg (Nat.not_lt_zero idx)] at hwmem
      by_cases hsave : (idx % 50 == 0 || idx == total - 1) = true
      · rw [if_pos hsave] at hwmem
        simp only [List.mem_append, List.mem_singleton] at hwmem
        rcases hwmem with hold | hnew
        · obtain ⟨h1, rest', h2⟩ := hw w hold
          exact ⟨h1, rest' ++ [recordFor c idx row], by rw [← List.append_assoc, h2]⟩
        · subst hnew
          refine ⟨by simp [hlen], [], by simp⟩
      · rw [if_neg hsave] at hwmem
        obtain ⟨h1, rest', h2⟩ := hw w hwmem
        exact ⟨h1, rest' ++ [recordFor c idx row], by rw [← List.append_assoc, h2]⟩
    obtain ⟨hL, hW⟩ := ih (idx + 1) _ hlen' hw'
    refine ⟨?_, hW⟩
    rw [hL]
    simp only [List.length_cons]
    omega


lemma truncation_marker_length : truncation_marker.length = 13 := by decide

lemma truncate_policy_short {t : List Char} (h : t.length ≤ max_chars) :
    truncate_policy t = t := by
  unfold truncate_policy
  rw [if_neg (by omega)]

lemma truncate_policy_long {t : List Char} (h : max_chars < t.length) :
    truncate_policy t = t.take max_chars ++ truncation_marker := by
  unfold truncate_policy
  rw [if_pos (by omega)]

/-- Re-applying the input-size guard to an already-guarded text changes
nothing: the Python retry therefore dispatches the identical request. -/
lemma truncate_policy_idem (t : List Char) :
    truncate_policy (truncate_policy t) = truncate_policy t := by
  by_cases h : max_chars < t.length
  · rw [truncate_policy_long h]
    have hlen : (t.take max_chars).length = max_chars := by
      rw [List.length_take]; omega
    have h2 : max_chars < (t.take max_chars ++ truncation_marker).length := by
      rw [List.length_append, hlen, truncation_marker_length]; omega
    rw [truncate_policy_long h2, List.take_left' hlen]
  · have h' : t.length ≤ max_chars := by omega
    rw [truncate_policy_short h']
    exact truncate_policy_short h'

lemma dropWhile_ws_replicate (n : Nat) :
    List.dropWhile Char.isWhitespace (List.replicate n 'a') = List.replicate n 'a' := by
  cases n with
  | zero => rfl
  | succ m =>
    rw [List.replicate_succ]
    have h : Char.isWhitespace 'a' = false := by decide
    simp [List.dropWhile, h]

lemma pyStrip_replicate (n : Nat) :
    pyStrip (List.replicate n 'a') = List.replicate n 'a' := by
  unfold pyStrip
  rw [dropWhile_ws_replicate, List.reverse_replicate, dropWhile_ws_replicate,
    List.reverse_replicate]

lemma risk_low_iff (s : Nat) : privacy_risk_level s = "LOW" ↔ 7 ≤ s := by
  unfold privacy_risk_level
  split_ifs with h1 h2
  · exact iff_of_true rfl h1
  · exact iff_of_false (by decide) h1
  · exact iff_of_false (by decide) h1

lemma risk_med_iff (s : Nat) : privacy_risk_level s = "MEDIUM" ↔ 4 ≤ s ∧ s ≤ 6 := by
  unfold privacy_risk_level
  split_ifs with h1 h2
  · exact iff_of_false (by decide) (by omega)
  · exact iff_of_true rfl (by omega)
  · exact iff_of_false (by decide) (by omega)

lemma risk_high_iff (s : Nat) : privacy_risk_level s = "HIGH" ↔ s ≤ 3 := by
  unfold privacy_risk_level
  split_ifs with h1 h2
  · exact iff_of_false (by decide) (by omega)
  · exact iff_of_false (by decide) (by omega)
  · exact iff_of_true rfl (by omega)

lemma riskRank_anti {s s' : Nat} (h : s ≤ s') :
    riskRank (privacy_risk_level s') ≤ riskRank (privacy_risk_level s) := by
  unfold privacy_risk_level
  split_ifs <;> first | decide | omega

lemma score_count (b : Indicators) :
    privacy_compliance_score b = (indicatorList b).count true := by
  obtain ⟨a1, a2, a3, a4, a5, a6, a7, a8, a9⟩ := b
  cases a1 <;> cases a2 <;> cases a3 <;> cases a4 <;> cases a5 <;>
    cases a6 <;> cases a7 <;> cases a8 <;> cases a9 <;> rfl

lemma intercalate_nil (sep : String) : sep.intercalate [] = "" := rfl

lemma process_batch_zero (c : Classify) (rows : List InputRow)
    (a0 : Option (List FlatRecord)) :
    process_batch c rows 0 a0
      = { runLoop c rows.length 0 0 rows ⟨[], a0, []⟩ with
          artifact := some (runLoop c rows.length 0 0 rows ⟨[], a0, []⟩).results } := by
  unfold process_batch
  simp

lemma process_batch_none_seed (c : Classify) (rows : List InputRow) (k : Nat) :
    process_batch c rows k none
      = { runLoop c rows.length k 0 rows ⟨[], none, []⟩ with
          artifact := some (runLoop c rows.length k 0 rows ⟨[], none, []⟩).results } := by
  unfold process_batch
  simp

lemma process_batch_pos_seed (c : Classify) (rows : List InputRow) (k : Nat)
    (hk : 0 < k) (a : List FlatRecord) :
    process_batch c rows k (some a)
      = { runLoop c rows.length k 0 rows ⟨a, some a, []⟩ with
          artifact := some (runLoop c rows.length k 0 rows ⟨a, some a, []⟩).results } := by
  unfold process_batch
  simp [hk]

lemma analyzeAux_step_rl (env : Nat → List Char → ClassifierOutcome)
    (fuel : Nat) (text : List Char) (attempt slept : Nat)
    (h : env attempt (truncate_policy text) = .rateLimited) :
    analyzeAux env (fuel + 1) text attempt slept
      = analyzeAux env fuel (truncate_policy text) (attempt + 1) (slept + cooldown) := by
  simp only [analyzeAux]
  rw [h]

lemma analyzeAux_step_exn (env : Nat → List Char → ClassifierOutcome)
    (fuel : Nat) (text : List Char) (attempt slept : Nat)
    (h : env attempt (truncate_policy text) = .exn) :
    analyzeAux env (fuel + 1) text attempt slept = some (none, slept) := by
  simp only [analyzeAux]
  rw [h]

lemma analyzeAux_step_resp (env : Nat → List Char → ClassifierOutcome)
    (fuel : Nat) (text : List Char) (attempt slept : Nat) (body : JValue)
    (h : env attempt (truncate_policy text) = .response body) :
    analyzeAux env (fuel + 1) text attempt slept
      = (match validate body with
         | .ok r => some (some (rawOfResult r), slept)
         | .error _ => some (none, slept)) := by
  simp only [analyzeAux]
  rw [h]

lemma validate_good : validate (.jobj goodFields) = .ok goodResult := by rfl

lemma bind_ok {α β : Type} {x : Except SchemaViolation α}
    {f : α → Except SchemaViolation β} {b : β}
    (h : x >>= f = .ok b) : ∃ a, x = .ok a ∧ f a = .ok b := by
  cases x with
  | error e => simp [Bind.bind, Except.bind] at h
  | ok a => exact ⟨a, rfl, by simpa [Bind.bind, Except.bind] using h⟩

lemma getBool_ok {fs : List (String × JValue)} {k : String} {b : Bool}
    (h : getBool fs k = .ok b) : lookupField fs k = some (.jbool b) := by
  unfold getBool at h
  cases hl : lookupField fs k with
  | none => simp_all
  | some v => cases v <;> simp_all

lemma getStr_ok {fs : List (String × JValue)} {k : String} {s : String}
    (h : getStr fs k = .ok s) : lookupField fs k = some (.jstr s) := by
  unfold getStr at h
  cases hl : lookupField fs k with
  | none => simp_all
  | some v => cases v <;> simp_all

lemma getArr_ok {fs : List (String × JValue)} {k : String} {xs : List JValue}
    (h : getArr fs k = .ok xs) : lookupField fs k = some (.jarr xs) := by
  unfold getArr at h
  cases hl : lookupField fs k with
  | none => simp_all
  | some v => cases v <;> simp_all

lemma getField_ok {fs : List (String × JValue)} {k : String} {v : JValue}
    (h : getField fs k = .ok v) : lookupField fs k = some v := by
  unfold getField at h
  cases hl : lookupField fs k with
  | none => simp_all
  | some w => simp_all

lemma getOptInt_ok {fs : List (String × JValue)} {k : String} {a : Option Int}
    (h : getOptInt fs k = .ok a) : (lookupField fs k).isSome = true := by
  unfold getOptInt at h
  cases hl : lookupField fs k with
  | none => simp_all
  | some v => rfl

lemma checkEnumList_ok {k : String} {allowed : List String} :
    ∀ {xs : List JValue} {ys : List String},
      checkEnumList k allowed xs = .ok ys → ∀ s ∈ ys, allowed.contains s = true := by
  intro xs
  induction xs with
  | nil =>
    intro ys h s hs
    simp only [checkEnumList] at h
    injection h with h
    subst h
    exact absurd hs (List.not_mem_nil s)
  | cons v rest ih =>
    intro ys h s hs
    cases v with
    | jstr str =>
      simp only [checkEnumList] at h
      split_ifs at h with hc
      · cases hr : checkEnumList k allowed rest with
        | error e => rw [hr] at h; simp [Except.map] at h
        | ok ys' =>
          rw [hr] at h
          simp only [Except.map] at h
          injection h with h
          subst h
          rcases List.mem_cons.mp hs with rfl | hs'
          · exact hc
          · exact ih hr s hs'
    | jnull => simp [checkEnumList] at h
    | jbool b => simp [checkEnumList] at h
    | jnum n => simp [checkEnumList] at h
    | jarr l => simp [checkEnumList] at h
    | jobj o => simp [checkEnumList] at h

lemma getEnumList_ok {fs : List (String × JValue)} {k : String}
    {allowed ys : List String} (h : getEnumList fs k allowed = .ok ys) :
    ∀ s ∈ ys, allowed.contains s = true := by
  unfold getEnumList at h
  obtain ⟨xs, _, h2⟩ := bind_ok h
  exact checkEnumList_ok h2

/-- The accepted enum list is exactly the string contents of the response
array: nothing is filtered out, and every member is in the closed set. -/
lemma checkEnumList_ok_shape {k : String} {allowed : List String} :
    ∀ {xs : List JValue} {ys : List String},
      checkEnumList k allowed xs = .ok ys →
      xs = ys.map JValue.jstr ∧ ∀ s ∈ ys, allowed.contains s = true := by
  intro xs
  induction xs with
  | nil =>
    intro ys h
    simp only [checkEnumList] at h
    injection h with h
    subst h
    exact ⟨rfl, fun s hs => absurd hs (List.not_mem_nil s)⟩
  | cons v rest ih =>
    intro ys h
    cases v with
    | jstr str =>
      simp only [checkEnumList] at h
      split_ifs at h with hc
      · cases hr : checkEnumList k allowed rest with
        | error e => rw [hr] at h; simp [Except.map] at h
        | ok ys' =>
          rw [hr] at h
          simp only [Except.map] at h
          injection h with h
          subst h
          obtain ⟨hshape, hmem⟩ := ih hr
          refine ⟨by rw [List.map_cons, ← hshape], ?_⟩
          intro s hs
          rcases List.mem_cons.mp hs with rfl | hs'
          · exact hc
          · exact hmem s hs'
    | jnull => simp [checkEnumList] at h
    | jbool b => simp [checkEnumList] at h
    | jnum n => simp [checkEnumList] at h
    | jarr l => simp [checkEnumList] at h
    | jobj o => simp [checkEnumList] at h

lemma getEnumList_ok_shape {fs : List (String × JValue)} {k : String}
    {allowed ys : List String} (h : getEnumList fs k allowed = .ok ys) :
    lookupField fs k = some (.jarr (ys.map JValue.jstr)) ∧
      ∀ s ∈ ys, allowed.contains s = true := by
  unfold getEnumList at h
  obtain ⟨xs, h1, h2⟩ := bind_ok h
  obtain ⟨hshape, hmem⟩ := checkEnumList_ok_shape h2
  refine ⟨?_, hmem⟩
  rw [getArr_ok h1, hshape]

/-- Acceptance of a `coppa_analysis` sub-object fully characterizes the
body: the object has no undeclared keys, all declared keys present, each
field carries the declared type, and the accepted record's lists are exactly
the string contents of the body's arrays (no member filtered out), all in
their closed sets. -/
lemma validateCOPPA_ok {v : JValue} {c : COPPAAnalysis}
    (h : validateCOPPA v = .ok c) :
    ∃ o, v = .jobj o ∧
      (∀ p ∈ o, coppaKeys.contains p.1 = true) ∧
      (∀ k ∈ coppaKeys, (lookupField o k).isSome = true) ∧
      lookupField o "mentions_coppa" = some (.jbool c.mentions_coppa) ∧
      lookupField o "claims_compliance" = some (.jbool c.claims_compliance) ∧
      lookupField o "consent_methods"
        = some (.jarr (c.consent_methods.map JValue.jstr)) ∧
      lookupField o "consent_method_details"
        = some (.jstr c.consent_method_details) ∧
      lookupField o "exceptions_claimed"
        = some (.jarr (c.exceptions_claimed.map JValue.jstr)) ∧
      lookupField o "exception_details" = some (.jstr c.exception_details) ∧
      (∀ s ∈ c.consent_methods, coppaConsentMethods.contains s = true) ∧
      (∀ s ∈ c.exceptions_claimed, coppaExceptions.contains s = true) := by
  cases v with
  | jobj fs =>
    simp only [validateCOPPA] at h
    cases hfind : fs.find? (fun p => !(coppaKeys.contains p.1)) with
    | some p => rw [hfind] at h; simp at h
    | none =>
      rw [hfind] at h
      obtain ⟨m, e1, h⟩ := bind_ok h
      obtain ⟨cc, e2, h⟩ := bind_ok h
      obtain ⟨cm, e3, h⟩ := bind_ok h
      obtain ⟨cmd, e4, h⟩ := bind_ok h
      obtain ⟨ex, e5, h⟩ := bind_ok h
      obtain ⟨exd, e6, h⟩ := bind_ok h
      obtain ⟨age, e7, h⟩ := bind_ok h
      injection h with h
      subst h
      have l1 := getBool_ok e1
      have l2 := getBool_ok e2
      obtain ⟨l3, hm3⟩ := getEnumList_ok_shape e3
      have l4 := getStr_ok e4
      obtain ⟨l5, hm5⟩ := getEnumList_ok_shape e5
      have l6 := getStr_ok e6
      have l7 := getOptInt_ok e7
      refine ⟨fs, rfl, ?_, ?_, l1, l2, l3, l4, l5, l6, hm3, hm5⟩
      · intro p hp
        have := List.find?_eq_none.mp hfind p hp
        simpa using this
      · intro k hk
        simp only [coppaKeys, List.mem_cons, List.not_mem_nil, or_false] at hk
        rcases hk with rfl | rfl | rfl | rfl | rfl | rfl | rfl
        · rw [l1]; rfl
        · rw [l2]; rfl
        · rw [l3]; rfl
        · rw [l4]; rfl
        · rw [l5]; rfl
        · rw [l6]; rfl
        · exact l7
  | jnull => simp [validateCOPPA] at h
  | jbool b => simp [validateCOPPA] at h
  | jnum n => simp [validateCOPPA] at h
  | jstr s => simp [validateCOPPA] at h
  | jarr l => simp [validateCOPPA] at h

/-- Acceptance of a `gdpr_analysis` sub-object fully characterizes the body,
as in `validateCOPPA_ok`. -/
lemma validateGDPR_ok {v : JValue} {g : GDPRAnalysis}
    (h : validateGDPR v = .ok g) :
    ∃ o, v = .jobj o ∧
      (∀ p ∈ o, gdprKeys.contains p.1 = true) ∧
      (∀ k ∈ gdprKeys, (lookupField o k).isSome = true) ∧
      lookupField o "mentions_gdpr" = some (.jbool g.mentions_gdpr) ∧
      lookupField o "claims_compliance" = some (.jbool g.claims_compliance) ∧
      lookupField o "consent_methods"
        = some (.jarr (g.consent_methods.map JValue.jstr)) ∧
      lookupField o "consent_method_details"
        = some (.jstr g.consent_method_details) ∧
      lookupField o "lawful_bases"
        = some (.jarr (g.lawful_bases.map JValue.jstr)) ∧
      lookupField o "lawful_basis_details" = some (.jstr g.lawful_basis_details) ∧
      (∀ s ∈ g.consent_methods, gdprConsentMethods.contains s = true) ∧
      (∀ s ∈ g.lawful_bases, gdprLawfulBases.contains s = true) := by
  cases v with
  | jobj fs =>
    simp only [validateGDPR] at h
    cases hfind : fs.find? (fun p => !(gdprKeys.contains p.1)) with
    | some p => rw [hfind] at h; simp at h
    | none =>
      rw [hfind] at h
      obtain ⟨m, e1, h⟩ := bind_ok h
      obtain ⟨cc, e2, h⟩ := bind_ok h
      obtain ⟨cm, e3, h⟩ := bind_ok h
      obtain ⟨cmd, e4, h⟩ := bind_ok h
      obtain ⟨lb, e5, h⟩ := bind_ok h
      obtain ⟨lbd, e6, h⟩ := bind_ok h
      obtain ⟨age, e7, h⟩ := bind_ok h
      injection h with h
      subst h
      have l1 := getBool_ok e1
      have l2 := getBool_ok e2
      obtain ⟨l3, hm3⟩ := getEnumList_ok_shape e3
      have l4 := getStr_ok e4
      obtain ⟨l5, hm5⟩ := getEnumList_ok_shape e5
      have l6 := getStr_ok e6
      have l7 := getOptInt_ok e7
      refine ⟨fs, rfl, ?_, ?_, l1, l2, l3, l4, l5, l6, hm3, hm5⟩
      · intro p hp
        have := List.find?_eq_none.mp hfind p hp
        simpa using this
      · intro k hk
        simp only [gdprKeys, List.mem_cons, List.not_mem_nil, or_false] at hk
        rcases hk with rfl | rfl | rfl | rfl | rfl | rfl | rfl
        · rw [l1]; rfl
        · rw [l2]; rfl
        · rw [l3]; rfl
        · rw [l4]; rfl
        · rw [l5]; rfl
        · rw [l6]; rfl
        · exact l7
  | jnull => simp [validateGDPR] at h
  | jbool b => simp [validateGDPR] at h
  | jnum n => simp [validateGDPR] at h
  | jstr s => simp [validateGDPR] at h
  | jarr l => simp [validateGDPR] at h

lemma validate_ok_sound {fs : List (String × JValue)} {r : PolicyAnalysisResult}
    (h : validate (.jobj fs) = .ok r) :
    (∀ p ∈ fs, resultKeys.contains p.1 = true) ∧
    (∀ k ∈ resultKeys, (lookupField fs k).isSome = true) ∧
    (∀ k ∈ boolKeys, ∃ bv, lookupField fs k = some (.jbool bv)) ∧
    (∃ xs, lookupField fs "third_party_list" = some (.jarr xs)) ∧
    (∃ xs, lookupField fs "third_party_details" = some (.jarr xs)) ∧
    (∃ o, lookupField fs "coppa_analysis" = some (.jobj o) ∧
      (∀ p ∈ o, coppaKeys.contains p.1 = true) ∧
      (∀ k ∈ coppaKeys, (lookupField o k).isSome = true) ∧
      lookupField o "consent_methods"
        = some (.jarr (r.coppa_analysis.consent_methods.map JValue.jstr)) ∧
      lookupField o "exceptions_claimed"
        = some (.jarr (r.coppa_analysis.exceptions_claimed.map JValue.jstr))) ∧
    (∃ o, lookupField fs "gdpr_analysis" = some (.jobj o) ∧
      (∀ p ∈ o, gdprKeys.contains p.1 = true) ∧
      (∀ k ∈ gdprKeys, (lookupField o k).isSome = true) ∧
      lookupField o "consent_methods"
        = some (.jarr (r.gdpr_analysis.consent_methods.map JValue.jstr)) ∧
      lookupField o "lawful_bases"
        = some (.jarr (r.gdpr_analysis.lawful_bases.map JValue.jstr))) ∧
    (∀ s ∈ r.coppa_analysis.consent_methods, coppaConsentMethods.contains s = true) ∧
    (∀ s ∈ r.coppa_analysis.exceptions_claimed, coppaExceptions.contains s = true) ∧
    (∀ s ∈ r.gdpr_analysis.consent_methods, gdprConsentMethods.contains s = true) ∧
    (∀ s ∈ r.gdpr_analysis.lawful_bases, gdprLawfulBases.contains s = true) := by
  simp only [validate] at h
  cases hfind : fs.find? (fun p => !(resultKeys.contains p.1)) with
  | some p => rw [hfind] at h; simp at h
  | none =>
    rw [hfind] at h
    obtain ⟨b1, e1, h⟩ := bind_ok h
    obtain ⟨b2, e2, h⟩ := bind_ok h
    obtain ⟨b3, e3, h⟩ := bind_ok h
    obtain ⟨tpl, e4, h⟩ := bind_ok h
    obtain ⟨tpdv, e5, h⟩ := bind_ok h
    obtain ⟨tpd, e6, h⟩ := bind_ok h
    obtain ⟨b4, e7, h⟩ := bind_ok h
    obtain ⟨b5, e8, h⟩ := bind_ok h
    obtain ⟨b6, e9, h⟩ := bind_ok h
    obtain ⟨b7, e10, h⟩ := bind_ok h
    obtain ⟨b8, e11, h⟩ := bind_ok h
    obtain ⟨b9, e12, h⟩ := bind_ok h
    obtain ⟨cv, e13, h⟩ := bind_ok h
    obtain ⟨ca, e14, h⟩ := bind_ok h
    obtain ⟨gv, e15, h⟩ := bind_ok h
    obtain ⟨ga, e16, h⟩ := bind_ok h
    injection h with h
    subst h
    have l1 := getBool_ok e1
    have l2 := getBool_ok e2
    have l3 := getBool_ok e3
    obtain ⟨xs4, e4a, _⟩ := bind_ok (by unfold getStrList at e4; exact e4)
    have l4 := getArr_ok e4a
    have l5 := getField_ok e5
    have l7 := getBool_ok e7
    have l8 := getBool_ok e8
    have l9 := getBool_ok e9
    have l10 := getBool_ok e10
    have l11 := getBool_ok e11
    have l12 := getBool_ok e12
    have l13 := getField_ok e13
    have l15 := getField_ok e15
    have hdet : ∃ xs, tpdv = JValue.jarr xs := by
      cases tpdv with
      | jarr xs => exact ⟨xs, rfl⟩
      | jnull => simp at e6
      | jbool b => simp at e6
      | jnum n => simp at e6
      | jstr s => simp at e6
      | jobj o => simp at e6
    obtain ⟨xs5, rfl⟩ := hdet
    obtain ⟨co, rfl, hexc, hpresc, _, _, hcmc, _, hexlc, _, henc1, henc2⟩ :=
      validateCOPPA_ok e14
    obtain ⟨go, rfl, hexg, hpresg, _, _, hcmg, _, hlbg, _, heng1, heng2⟩ :=
      validateGDPR_ok e16
    refine ⟨?_, ?_, ?_, ⟨xs4, l4⟩, ⟨xs5, l5⟩,
      ⟨co, l13, hexc, hpresc, hcmc, hexlc⟩,
      ⟨go, l15, hexg, hpresg, hcmg, hlbg⟩,
      henc1, henc2, heng1, heng2⟩
    · intro p hp
      have := List.find?_eq_none.mp hfind p hp
      simpa using this
    · intro k hk
      simp only [resultKeys, List.mem_cons, List.not_mem_nil, or_false] at hk
      rcases hk with rfl | rfl | rfl | rfl | rfl | rfl | rfl | rfl | rfl | rfl | rfl | rfl | rfl
      · rw [l1]; rfl
      · rw [l2]; rfl
      · rw [l3]; rfl
      · rw [l4]; rfl
      · rw [l5]; rfl
      · rw [l7]; rfl
      · rw [l8]; rfl
      · rw [l9]; rfl
      · rw [l10]; rfl
      · rw [l11]; rfl
      · rw [l12]; rfl
      · rw [l13]; rfl
      · rw [l15]; rfl
    · intro k hk
      simp only [boolKeys, List.mem_cons, List.not_mem_nil, or_false] at hk
      rcases hk with rfl | rfl | rfl | rfl | rfl | rfl | rfl | rfl | rfl
      · exact ⟨b1, l1⟩
      · exact ⟨b2, l2⟩
      · exact ⟨b3, l3⟩
      · exact ⟨b4, l7⟩
      · exact ⟨b5, l8⟩
      · exact ⟨b6, l9⟩
      · exact ⟨b7, l10⟩
      · exact ⟨b8, l11⟩
      · exact ⟨b9, l12⟩

/-! ## Claim theorems -/

/-- Claim C4: the pre-dispatch input-size guard is the identity on texts of at
most 100,000 characters; any longer text is cut to exactly its first 100,000
characters followed by the literal truncation marker (so the call is
normalized, never dropped); in particular a 100,001-character text is
truncated and a 100,000-character text passes through unmodified. -/
theorem C4_truncation_guard (t : List Char) :
    (t.length ≤ max_chars → truncate_policy t = t) ∧
    (max_chars < t.length →
      truncate_policy t = t.take max_chars ++ truncation_marker ∧
      (t.take max_chars).length = 100000) ∧
    (t.length = 100001 → truncate_policy t = t.take 100000 ++ truncation_marker) ∧
    (t.length = 100000 → truncate_policy t = t) := by
  refine ⟨fun h => truncate_policy_short h, fun h => ⟨truncate_policy_long h, ?_⟩,
    fun h => ?_, fun h => ?_⟩
  · rw [List.length_take]
    unfold max_chars at h ⊢
    omega
  · have : max_chars < t.length := by unfold max_chars; omega
    exact truncate_policy_long this
  · exact truncate_policy_short (by unfold max_chars; omega)

/-- Witness for C4 at texts of 100,001 and 100,000 characters. -/
theorem C4_truncation_guard_witness :
    (max_chars < (List.replicate 100001 'a').length ∧
      truncate_policy (List.replicate 100001 'a')
        = (List.replicate 100001 'a').take max_chars ++ truncation_marker) ∧
    ((List.replicate 100000 'a').length ≤ max_chars ∧
      truncate_policy (List.replicate 100000 'a') = List.replicate 100000 'a') := by
  have h1 : max_chars < (List.replicate 100001 'a').length := by
    rw [List.length_replicate]; unfold max_chars; omega
  have h2 : (List.replicate 100000 'a').length ≤ max_chars := by
    rw [List.length_replicate]; unfold max_chars; omega
  exact ⟨⟨h1, ((C4_truncation_guard _).2.1 h1).1⟩,
    ⟨h2, (C4_truncation_guard _).1 h2⟩⟩

/-- Claim C7: the derived compliance score is the count of true indicators
(range 0-9); the risk level is LOW iff score ≥ 7, MEDIUM iff 4 ≤ score ≤ 6,
HIGH iff score ≤ 3; both are recomputed as pure functions of the booleans;
and adding indicators never decreases the score and never moves the level
toward a riskier class. -/
theorem C7_score_risk (b b' : Indicators) :
    privacy_compliance_score b = (indicatorList b).count true ∧
    privacy_compliance_score b ≤ 9 ∧
    (privacy_risk_level (privacy_compliance_score b) = "LOW" ↔
      7 ≤ privacy_compliance_score b) ∧
    (privacy_risk_level (privacy_compliance_score b) = "MEDIUM" ↔
      4 ≤ privacy_compliance_score b ∧ privacy_compliance_score b ≤ 6) ∧
    (privacy_risk_level (privacy_compliance_score b) = "HIGH" ↔
      privacy_compliance_score b ≤ 3) ∧
    (indicatorsLe b b' →
      privacy_compliance_score b ≤ privacy_compliance_score b' ∧
      riskRank (privacy_risk_level (privacy_compliance_score b')) ≤
        riskRank (privacy_risk_level (privacy_compliance_score b))) := by
  have hb : ∀ x : Bool, x.toNat ≤ 1 := by decide
  refine ⟨score_count b, ?_, risk_low_iff _, risk_med_iff _, risk_high_iff _, ?_⟩
  · unfold privacy_compliance_score
    have h1 := hb b.data_collection_disclosure
    have h2 := hb b.data_use_purpose_specification
    have h3 := hb b.third_party_sharing_disclosure
    have h4 := hb b.parental_consent_mechanism
    have h5 := hb b.coppa_ferpa_compliance_mention
    have h6 := hb b.data_retention_policy
    have h7 := hb b.user_data_rights
    have h8 := hb b.data_security_encryption
    have h9 := hb b.tracking_technologies_disclosure
    omega
  · intro hle
    obtain ⟨h1, h2, h3, h4, h5, h6, h7, h8, h9⟩ := hle
    have key : ∀ x y : Bool, (x = true → y = true) → x.toNat ≤ y.toNat := by decide
    have m1 := key _ _ h1
    have m2 := key _ _ h2
    have m3 := key _ _ h3
    have m4 := key _ _ h4
    have m5 := key _ _ h5
    have m6 := key _ _ h6
    have m7 := key _ _ h7
    have m8 := key _ _ h8
    have m9 := key _ _ h9
    have hsc : privacy_compliance_score b ≤ privacy_compliance_score b' := by
      unfold privacy_compliance_score
      omega
    exact ⟨hsc, riskRank_anti hsc⟩

/-- Witness for C7: all-false versus all-true indicator tuples. -/
theorem C7_score_risk_witness :
    indicatorsLe ⟨false, false, false, false, false, false, false, false, false⟩
      ⟨true, true, true, true, true, true, true, true, true⟩ ∧
    privacy_compliance_score ⟨false, false, false, false, false, false, false, false, false⟩ ≤
      privacy_compliance_score ⟨true, true, true, true, true, true, true, true, true⟩ ∧
    riskRank (privacy_risk_level (privacy_compliance_score
        ⟨true, true, true, true, true, true, true, true, true⟩)) ≤
      riskRank (privacy_risk_level (privacy_compliance_score
        ⟨false, false, false, false, false, false, false, false, false⟩)) := by
  have h := (C7_score_risk
    ⟨false, false, false, false, false, false, false, false, false⟩
    ⟨true, true, true, true, true, true, true, true, true⟩).2.2.2.2.2 (by decide)
  exact ⟨by decide, h.1, h.2⟩

/-- Claim C1: at an index at or past the resume offset, an absent/NaN policy
text or one whose trimmed length is under 100 characters makes the runner
append a record with error `"empty_or_short_policy"`, all 9 indicators false
and all nested detail fields empty, without invoking the classifier; the
boundary sits between trimmed lengths 99 (short-circuited) and 100 (not). -/
theorem C1_short_circuit (classify classify' : Classify) (total resume idx : Nat)
    (row : InputRow) (st : RunState)
    (hres : resume ≤ idx) (hshort : isShortPolicy row.policy_text = true) :
    (stepRecord classify total resume st idx row).results
        = st.results ++ [shortRecord idx row] ∧
    stepRecord classify total resume st idx row
        = stepRecord classify' total resume st idx row ∧
    (shortRecord idx row).error = some "empty_or_short_policy" ∧
    ((shortRecord idx row).data_collection_disclosure = false ∧
     (shortRecord idx row).data_use_purpose_specification = false ∧
     (shortRecord idx row).third_party_sharing_disclosure = false ∧
     (shortRecord idx row).parental_consent_mechanism = false ∧
     (shortRecord idx row).coppa_ferpa_compliance_mention = false ∧
     (shortRecord idx row).data_retention_policy = false ∧
     (shortRecord idx row).user_data_rights = false ∧
     (shortRecord idx row).data_security_encryption = false ∧
     (shortRecord idx row).tracking_technologies_disclosure = false) ∧
    ((shortRecord idx row).third_party_list = "" ∧
     (shortRecord idx row).third_party_data_shared = "" ∧
     (shortRecord idx row).coppa = empty_coppa_fields ∧
     (shortRecord idx row).gdpr = empty_gdpr_fields) ∧
    (∀ t : List Char, (pyStrip t).length = 99 → isShortPolicy (some t) = true) ∧
    (∀ t : List Char, (pyStrip t).length = 100 → isShortPolicy (some t) = false) := by
  have hrec : ∀ c : Classify, recordFor c idx row = shortRecord idx row := by
    intro c
    unfold recordFor
    rw [if_pos hshort]
  refine ⟨?_, ?_, rfl, ⟨rfl, rfl, rfl, rfl, rfl, rfl, rfl, rfl, rfl⟩,
    ⟨rfl, rfl, rfl, rfl⟩, ?_, ?_⟩
  · unfold stepRecord
    rw [if_neg (by omega)]
    simp only [hrec]
    split <;> rfl
  · simp only [stepRecord, hrec]
  · intro t h
    show decide ((pyStrip t).length < 100) = true
    rw [h]
    decide
  · intro t h
    show decide ((pyStrip t).length < 100) = false
    rw [h]
    decide

/-- Witness for C1: trimmed lengths 99 and 100 at resume offset 0. -/
theorem C1_short_circuit_witness :
    (0 : Nat) ≤ 0 ∧ isShortPolicy row99.policy_text = true ∧
    (stepRecord (fun _ _ => none) 1 0 ⟨[], none, []⟩ 0 row99).results
      = [shortRecord 0 row99] ∧
    isShortPolicy (some (List.replicate 100 'a')) = false := by
  have hshort : isShortPolicy row99.policy_text = true := by
    show decide ((pyStrip (List.replicate 99 'a')).length < 100) = true
    rw [pyStrip_replicate, List.length_replicate]
    decide
  have h := C1_short_circuit (fun _ _ => none) (fun _ _ => some RawAnalysis.empty)
    1 0 0 row99 ⟨[], none, []⟩ (le_refl 0) hshort
  refine ⟨le_refl 0, hshort, by simpa using h.1, ?_⟩
  exact h.2.2.2.2.2.2 _ (by rw [pyStrip_replicate, List.length_replicate])

/-- Claim C2: in a non-resumed run the full accumulator is persisted exactly
after the records whose index is 0 mod 50 or is the last index `n-1`, each
snapshot is the whole accumulator so far (a prefix of the final results of
length `index+1`, never a delta), a final unconditional save follows the
loop, and 101 records give snapshot writes at indices 0, 50, 100 with all
101 rows in the final artifact. -/
theorem C2_checkpoint_cadence (c : Classify) (rows : List InputRow)
    (a0 : Option (List FlatRecord)) :
    (process_batch c rows 0 a0).writes.map Prod.fst
        = saveIdxs rows.length 0 rows.length ∧
    (∀ i, i ∈ (process_batch c rows 0 a0).writes.map Prod.fst ↔
        (i < rows.length ∧ (i % 50 = 0 ∨ i = rows.length - 1))) ∧
    (∀ w ∈ (process_batch c rows 0 a0).writes,
        w.2.length = w.1 + 1 ∧
          ∃ rest, w.2 ++ rest = (process_batch c rows 0 a0).results) ∧
    (process_batch c rows 0 a0).artifact = some (process_batch c rows 0 a0).results ∧
    (process_batch c rows 0 a0).results.length = rows.length ∧
    (rows.length = 101 →
        (process_batch c rows 0 a0).writes.map Prod.fst = [0, 50, 100] ∧
        (process_batch c rows 0 a0).results.length = 101) := by
  have hsnap := runLoop_writes_snap c rows.length rows 0 ⟨[], a0, []⟩ rfl
    (by intro w hwm; exact absurd hwm (List.not_mem_nil w))
  have hfst : (process_batch c rows 0 a0).writes.map Prod.fst
      = saveIdxs rows.length 0 rows.length := by
    rw [process_batch_zero]
    show ((runLoop c rows.length 0 0 rows ⟨[], a0, []⟩).writes).map Prod.fst = _
    rw [runLoop_writes_fst]
    simp
  have hlen : (process_batch c rows 0 a0).results.length = rows.length := by
    rw [process_batch_zero]
    show (runLoop c rows.length 0 0 rows ⟨[], a0, []⟩).results.length = _
    rw [hsnap.1]
    omega
  refine ⟨hfst, ?_, ?_, ?_, hlen, ?_⟩
  · intro i
    rw [hfst]
    rw [mem_saveIdxs]
    omega
  · intro w hwm
    rw [process_batch_zero] at hwm ⊢
    exact hsnap.2 w hwm
  · rw [process_batch_zero]
  · intro h101
    refine ⟨?_, by rw [hlen, h101]⟩
    rw [hfst, h101]
    decide

/-- Witness for C2 at a concrete 101-record input. -/
theorem C2_checkpoint_cadence_witness :
    (List.replicate 101 row99).length = 101 ∧
    (process_batch (fun _ _ => none) (List.replicate 101 row99) 0 none).writes.map Prod.fst
      = [0, 50, 100] ∧
    (process_batch (fun _ _ => none) (List.replicate 101 row99) 0 none).results.length
      = 101 := by
  have hlen : (List.replicate 101 row99).length = 101 := by simp
  have h := (C2_checkpoint_cadence (fun _ _ => none)
    (List.replicate 101 row99) none).2.2.2.2.2 hlen
  exact ⟨hlen, h.1, h.2⟩

/-- Claim C8: after a completed run produced its artifact, re-running on the
same input with `resume_from` equal to the record count seeds the accumulator
wholesale from the artifact, hard-skips every index (independently of the
classifier), performs no loop checkpoint, and the final save rewrites exactly
the seeded rows, leaving the artifact unchanged. -/
theorem C8_resume_full_idempotent (c1 c2 : Classify) (rows : List InputRow)
    (a0 : Option (List FlatRecord)) :
    (process_batch c2 rows rows.length (process_batch c1 rows 0 a0).artifact).artifact
      = (process_batch c1 rows 0 a0).artifact ∧
    (process_batch c2 rows rows.length (process_batch c1 rows 0 a0).artifact).results
      = (process_batch c1 rows 0 a0).results ∧
    (process_batch c2 rows rows.length (process_batch c1 rows 0 a0).artifact).writes
      = [] := by
  have h1a : (process_batch c1 rows 0 a0).artifact
      = some ((process_batch c1 rows 0 a0).results) := by
    rw [process_batch_zero]
  rcases Nat.eq_zero_or_pos rows.length with h0 | hpos
  · have hnil : rows = [] := List.length_eq_zero.mp h0
    subst hnil
    have hres1 : (process_batch c1 [] 0 a0).results = [] := by
      rw [process_batch_zero]
      rfl
    rw [h1a, hres1]
    refine ⟨?_, ?_, ?_⟩ <;> rfl
  · rw [h1a, process_batch_pos_seed c2 rows rows.length hpos]
    rw [runLoop_skipAll c2 rows.length rows.length rows 0 _ (by omega)]
    exact ⟨rfl, rfl, rfl⟩

/-- Claim C10: with `resume_from = k > 0` but no existing output artifact,
the accumulator is not seeded, indices below `k` are still hard-skipped, and
the final artifact holds exactly the records of indices `k` and above (with
their original indices): the first `k` rows are silently absent, and the run
completes normally with the final unconditional save. -/
theorem C10_resume_missing_artifact (c : Classify) (rows : List InputRow) (k : Nat)
    (hk : 0 < k) :
    (process_batch c rows k none).results = outputsAll c k (rows.drop k) ∧
    (process_batch c rows k none).artifact
      = some ((process_batch c rows k none).results) ∧
    (process_batch c rows k none).results.length = rows.length - k := by
  have hres : (process_batch c rows k none).results = outputsAll c k (rows.drop k) := by
    rw [process_batch_none_seed]
    show (runLoop c rows.length k 0 rows ⟨[], none, []⟩).results = _
    rw [runLoop_results, outputsFrom_drop c k rows 0 (by omega)]
    simp
  refine ⟨hres, ?_, ?_⟩
  · rw [process_batch_none_seed]
  · rw [hres, outputsAll_length, List.length_drop]

/-- Witness for C10 at `k = 1` over a 2-record input. -/
theorem C10_resume_missing_artifact_witness :
    0 < 1 ∧
    (process_batch (fun _ _ => none) [row99, row99] 1 none).results
      = outputsAll (fun _ _ => none) 1 ([row99, row99].drop 1) ∧
    (process_batch (fun _ _ => none) [row99, row99] 1 none).results.length
      = [row99, row99].length - 1 := by
  have h := C10_resume_missing_artifact (fun _ _ => none) [row99, row99] 1 (by decide)
  exact ⟨by decide, h.1, h.2.2⟩

/-- Claim C6: a non-rate-limit failure of the external call is caught by the
adapter and surfaces as an absent result (never re-raised); the batch runner
turns an absent result on a well-formed record into a FlatRecord with error
`"analysis_failed"` whose field shape equals the short-circuit record's, and
the loop continues: every run emits exactly one row per input record no
matter how the classifier fails. -/
theorem C6_failure_isolation :
    (∀ (env : Nat → List Char → ClassifierOutcome) (fuel : Nat) (text : List Char)
        (attempt slept : Nat),
        env attempt (truncate_policy text) = .exn →
        analyzeAux env (fuel + 1) text attempt slept = some (none, slept)) ∧
    (∀ (c : Classify) (total resume idx : Nat) (row : InputRow) (st : RunState),
        resume ≤ idx → isShortPolicy row.policy_text = false → c idx row = none →
        (stepRecord c total resume st idx row).results
          = st.results ++ [failedRecord idx row]) ∧
    (∀ (idx : Nat) (row : InputRow),
        (failedRecord idx row).error = some "analysis_failed" ∧
        failedRecord idx row = { shortRecord idx row with error := some "analysis_failed" }) ∧
    (∀ (c : Classify) (rows : List InputRow) (a0 : Option (List FlatRecord)),
        (process_batch c rows 0 a0).results.length = rows.length) := by
  refine ⟨?_, ?_, fun idx row => ⟨rfl, rfl⟩, ?_⟩
  · intro env fuel text attempt slept h
    exact analyzeAux_step_exn env fuel text attempt slept h
  · intro c total resume idx row st hres hshort hc
    have hrec : recordFor c idx row = failedRecord idx row := by
      simp [recordFor, hshort, hc]
    unfold stepRecord
    rw [if_neg (by omega)]
    split_ifs <;> simp [hrec]
  · intro c rows a0
    rw [process_batch_zero]
    show (runLoop c rows.length 0 0 rows ⟨[], a0, []⟩).results.length = _
    rw [runLoop_results, outputsFrom_ge c 0 rows 0 (le_refl 0)]
    simp [outputsAll_length]

/-- Witness for C6 at a failing environment and a 100-character row. -/
theorem C6_failure_isolation_witness :
    isShortPolicy row100.policy_text = false ∧
    analyzeAux (fun _ _ => .exn) 1 [] 0 0 = some (none, 0) ∧
    (stepRecord (fun _ _ => none) 1 0 ⟨[], none, []⟩ 0 row100).results
      = [failedRecord 0 row100] := by
  have hshort : isShortPolicy row100.policy_text = false := by
    show decide ((pyStrip (List.replicate 100 'a')).length < 100) = false
    rw [pyStrip_replicate, List.length_replicate]
    decide
  have h := C6_failure_isolation
  refine ⟨hshort, h.1 _ 0 [] 0 0 rfl, ?_⟩
  have h2 := h.2.1 (fun _ _ => none) 1 0 0 row100 ⟨[], none, []⟩ (le_refl 0) hshort rfl
  simpa using h2

/-- Claim C3: a rate-limit signal makes the adapter sleep a fixed 60-unit
cool-down and retry the identical request (the re-applied input-size guard is
idempotent); retries are unbounded across repeated signals (an
always-rate-limited classifier never resolves, for any attempt budget); and a
classifier that rate-limits exactly twice then succeeds yields exactly one
successful result, with no error marker on the flattened record, after two
cool-downs. -/
theorem C3_rate_limit_retry :
    (∀ (env : Nat → List Char → ClassifierOutcome) (fuel : Nat) (text : List Char)
        (attempt slept : Nat),
        env attempt (truncate_policy text) = .rateLimited →
        analyzeAux env (fuel + 1) text attempt slept
          = analyzeAux env fuel (truncate_policy text) (attempt + 1) (slept + cooldown)) ∧
    cooldown = 60 ∧
    (∀ text : List Char, truncate_policy (truncate_policy text) = truncate_policy text) ∧
    (∀ (fuel : Nat) (text : List Char) (attempt slept : Nat),
        analyzeAux (fun _ _ => .rateLimited) fuel text attempt slept = none) ∧
    (∀ (env : Nat → List Char → ClassifierOutcome) (body : JValue)
        (r : PolicyAnalysisResult) (fuel : Nat) (text : List Char),
        (∀ t, env 0 t = .rateLimited) → (∀ t, env 1 t = .rateLimited) →
        (∀ t, env 2 t = .response body) → validate body = .ok r →
        analyze_policy env (fuel + 3) text = some (some (rawOfResult r), 120)) ∧
    (∀ (idx : Nat) (row : InputRow) (a : RawAnalysis),
        (successRecord idx row a).error = none) := by
  refine ⟨analyzeAux_step_rl, rfl, truncate_policy_idem, ?_, ?_, fun idx row a => rfl⟩
  · intro fuel
    induction fuel with
    | zero => intro text attempt slept; rfl
    | succ m ih =>
      intro text attempt slept
      rw [analyzeAux_step_rl _ m text attempt slept rfl]
      exact ih _ _ _
  · intro env body r fuel text h0 h1 h2 hv
    show analyzeAux env (fuel + 3) text 0 0 = _
    rw [analyzeAux_step_rl env (fuel + 2) text 0 0 (h0 _)]
    rw [analyzeAux_step_rl env (fuel + 1) (truncate_policy text) 1 (0 + cooldown) (h1 _)]
    rw [analyzeAux_step_resp env fuel _ 2 _ body (h2 _)]
    rw [hv]
    norm_num [cooldown]

/-- Witness for C3: two rate-limit signals then the well-formed body. -/
theorem C3_rate_limit_retry_witness :
    validate (.jobj goodFields) = .ok goodResult ∧
    analyze_policy envTwoLimits 3 [] = some (some (rawOfResult goodResult), 120) ∧
    (successRecord 0 row100 (rawOfResult goodResult)).error = none := by
  have h := C3_rate_limit_retry
  exact ⟨validate_good,
    h.2.2.2.2.1 envTwoLimits (.jobj goodFields) goodResult 0 []
      (fun t => rfl) (fun t => rfl) (fun t => rfl) validate_good,
    h.2.2.2.2.2 0 row100 (rawOfResult goodResult)⟩

/-- Claim C9: the flattening transform is total — absent COPPA/GDPR
sub-objects, absent or empty third-party collections and empty enum lists all
flatten to empty strings (never the literal word "None", never an omitted
column, never an exception), and the fully-absent analysis flattens to the
all-default row. -/
theorem C9_flatten_total (idx : Nat) (row : InputRow) (a : RawAnalysis) :
    (a.coppa_analysis = none → extract_coppa_fields a = empty_coppa_fields) ∧
    (a.gdpr_analysis = none → extract_gdpr_fields a = empty_gdpr_fields) ∧
    ((a.third_party_details = none ∨ a.third_party_details = some []) →
        (successRecord idx row a).third_party_data_shared = "" ∧
        (successRecord idx row a).third_party_data_shared ≠ "None") ∧
    ((a.third_party_list = none ∨ a.third_party_list = some []) →
        (successRecord idx row a).third_party_list = "" ∧
        (successRecord idx row a).third_party_list ≠ "None") ∧
    (∀ cca, a.coppa_analysis = some cca → cca.consent_methods = some [] →
        (extract_coppa_fields a).coppa_consent_methods = "") ∧
    (∀ cca, a.coppa_analysis = some cca → cca.exceptions_claimed = some [] →
        (extract_coppa_fields a).coppa_exceptions = "") ∧
    (∀ g, a.gdpr_analysis = some g → g.consent_methods = some [] →
        (extract_gdpr_fields a).gdpr_consent_methods = "") ∧
    (∀ g, a.gdpr_analysis = some g → g.lawful_bases = some [] →
        (extract_gdpr_fields a).gdpr_lawful_bases = "") ∧
    successRecord idx row RawAnalysis.empty
      = { app_id := rowAppId idx row, app_name := rowAppName row, error := none,
          data_collection_disclosure := false, data_use_purpose_specification := false,
          third_party_sharing_disclosure := false, third_party_list := "",
          third_party_data_shared := "", parental_consent_mechanism := false,
          coppa_ferpa_compliance_mention := false, data_retention_policy := false,
          user_data_rights := false, data_security_encryption := false,
          tracking_technologies_disclosure := false,
          coppa := empty_coppa_fields, gdpr := empty_gdpr_fields } := by
  refine ⟨?_, ?_, ?_, ?_, ?_, ?_, ?_, ?_, rfl⟩
  · intro h
    unfold extract_coppa_fields
    rw [h]
    rfl
  · intro h
    unfold extract_gdpr_fields
    rw [h]
    rfl
  · intro h
    have hcol : (successRecord idx row a).third_party_data_shared = "" := by
      rcases h with h | h <;> simp [successRecord, h]
    exact ⟨hcol, by rw [hcol]; decide⟩
  · intro h
    have hcol : (successRecord idx row a).third_party_list = "" := by
      rcases h with h | h <;> simp [successRecord, h]
    exact ⟨hcol, by rw [hcol]; decide⟩
  · intro cca h hcm
    unfold extract_coppa_fields
    rw [h]
    simp [hcm, intercalate_nil]
  · intro cca h hcm
    unfold extract_coppa_fields
    rw [h]
    simp [hcm, intercalate_nil]
  · intro g h hcm
    unfold extract_gdpr_fields
    rw [h]
    simp [hcm, intercalate_nil]
  · intro g h hcm
    unfold extract_gdpr_fields
    rw [h]
    simp [hcm, intercalate_nil]

/-- Claim C5: strict schema validation accepts a response only when every
declared field — top-level and nested — is present with the right type, no
undeclared top-level field occurs, and the accepted record's enum lists are
exactly the string contents of the response's arrays with every member in
its closed set (nothing is filtered: acceptance is all-or-nothing).
Consequently a response whose nested enum array contains an out-of-set
value, or a non-string member, or whose sub-object misses a declared key, is
rejected with a SchemaViolation; and a response the validator rejects
surfaces through the adapter as an absent result, which the runner records
as a FlatRecord with error `"analysis_failed"`. -/
theorem C5_schema_strict :
    (∀ (fs : List (String × JValue)) (r : PolicyAnalysisResult),
        validate (.jobj fs) = .ok r →
        (∀ p ∈ fs, resultKeys.contains p.1 = true) ∧
        (∀ k ∈ resultKeys, (lookupField fs k).isSome = true) ∧
        (∀ k ∈ boolKeys, ∃ bv, lookupField fs k = some (.jbool bv)) ∧
        (∃ xs, lookupField fs "third_party_list" = some (.jarr xs)) ∧
        (∃ xs, lookupField fs "third_party_details" = some (.jarr xs)) ∧
        (∃ o, lookupField fs "coppa_analysis" = some (.jobj o) ∧
          (∀ p ∈ o, coppaKeys.contains p.1 = true) ∧
          (∀ k ∈ coppaKeys, (lookupField o k).isSome = true) ∧
          lookupField o "consent_methods"
            = some (.jarr (r.coppa_analysis.consent_methods.map JValue.jstr)) ∧
          lookupField o "exceptions_claimed"
            = some (.jarr (r.coppa_analysis.exceptions_claimed.map JValue.jstr))) ∧
        (∃ o, lookupField fs "gdpr_analysis" = some (.jobj o) ∧
          (∀ p ∈ o, gdprKeys.contains p.1 = true) ∧
          (∀ k ∈ gdprKeys, (lookupField o k).isSome = true) ∧
          lookupField o "consent_methods"
            = some (.jarr (r.gdpr_analysis.consent_methods.map JValue.jstr)) ∧
          lookupField o "lawful_bases"
            = some (.jarr (r.gdpr_analysis.lawful_bases.map JValue.jstr))) ∧
        (∀ s ∈ r.coppa_analysis.consent_methods, coppaConsentMethods.contains s = true) ∧
        (∀ s ∈ r.coppa_analysis.exceptions_claimed, coppaExceptions.contains s = true) ∧
        (∀ s ∈ r.gdpr_analysis.consent_methods, gdprConsentMethods.contains s = true) ∧
        (∀ s ∈ r.gdpr_analysis.lawful_bases, gdprLawfulBases.contains s = true)) ∧
    (∀ (fs o : List (String × JValue)) (xs : List JValue) (s : String),
        lookupField fs "coppa_analysis" = some (.jobj o) →
        lookupField o "consent_methods" = some (.jarr xs) →
        JValue.jstr s ∈ xs → coppaConsentMethods.contains s = false →
        ∃ e, validate (.jobj fs) = .error e) ∧
    (∀ (fs o : List (String × JValue)) (xs : List JValue) (v : JValue),
        lookupField fs "coppa_analysis" = some (.jobj o) →
        lookupField o "consent_methods" = some (.jarr xs) →
        v ∈ xs → (∀ s, v ≠ .jstr s) →
        ∃ e, validate (.jobj fs) = .error e) ∧
    (∀ (fs o : List (String × JValue)) (k : String),
        lookupField fs "coppa_analysis" = some (.jobj o) →
        k ∈ coppaKeys → lookupField o k = none →
        ∃ e, validate (.jobj fs) = .error e) ∧
    (∀ (fs o : List (String × JValue)) (xs : List JValue) (s : String),
        lookupField fs "gdpr_analysis" = some (.jobj o) →
        lookupField o "lawful_bases" = some (.jarr xs) →
        JValue.jstr s ∈ xs → gdprLawfulBases.contains s = false →
        ∃ e, validate (.jobj fs) = .error e) ∧
    (∀ (env : Nat → List Char → ClassifierOutcome) (fuel : Nat) (text : List Char)
        (attempt slept : Nat) (body : JValue) (e : SchemaViolation),
        env attempt (truncate_policy text) = .response body →
        validate body = .error e →
        analyzeAux env (fuel + 1) text attempt slept = some (none, slept)) ∧
    (∀ (c : Classify) (total resume idx : Nat) (row : InputRow) (st : RunState),
        resume ≤ idx → isShortPolicy row.policy_text = false → c idx row = none →
        (stepRecord c total resume st idx row).results
          = st.results ++ [failedRecord idx row] ∧
        (failedRecord idx row).error = some "analysis_failed") := by
  refine ⟨fun fs r h => validate_ok_sound h, ?_, ?_, ?_, ?_, ?_, ?_⟩
  · intro fs o xs s h1 h2 h3 h4
    cases hv : validate (.jobj fs) with
    | error e => exact ⟨e, rfl⟩
    | ok r =>
      exfalso
      obtain ⟨-, -, -, -, -, hcop, -, henum1, -, -, -⟩ := validate_ok_sound hv
      obtain ⟨o', ho', -, -, hcm', -⟩ := hcop
      rw [h1] at ho'
      injection ho' with ho'
      injection ho' with ho'
      subst ho'
      rw [h2] at hcm'
      injection hcm' with hcm'
      injection hcm' with hcm'
      subst hcm'
      obtain ⟨s', hs', heq⟩ := List.mem_map.mp h3
      injection heq with heq
      subst heq
      rw [henum1 s' hs'] at h4
      simp at h4
  · intro fs o xs v h1 h2 h3 hvne
    cases hv : validate (.jobj fs) with
    | error e => exact ⟨e, rfl⟩
    | ok r =>
      exfalso
      obtain ⟨-, -, -, -, -, hcop, -, -, -, -, -⟩ := validate_ok_sound hv
      obtain ⟨o', ho', -, -, hcm', -⟩ := hcop
      rw [h1] at ho'
      injection ho' with ho'
      injection ho' with ho'
      subst ho'
      rw [h2] at hcm'
      injection hcm' with hcm'
      injection hcm' with hcm'
      subst hcm'
      obtain ⟨s', hs', heq⟩ := List.mem_map.mp h3
      exact hvne s' heq.symm
  · intro fs o k h1 hk hnone
    cases hv : validate (.jobj fs) with
    | error e => exact ⟨e, rfl⟩
    | ok r =>
      exfalso
      obtain ⟨-, -, -, -, -, hcop, -, -, -, -, -⟩ := validate_ok_sound hv
      obtain ⟨o', ho', -, hpres', -, -⟩ := hcop
      rw [h1] at ho'
      injection ho' with ho'
      injection ho' with ho'
      subst ho'
      have := hpres' k hk
      rw [hnone] at this
      simp at this
  · intro fs o xs s h1 h2 h3 h4
    cases hv : validate (.jobj fs) with
    | error e => exact ⟨e, rfl⟩
    | ok r =>
      exfalso
      obtain ⟨-, -, -, -, -, -, hgd, -, -, -, henum4⟩ := validate_ok_sound hv
      obtain ⟨o', ho', -, -, -, hlb'⟩ := hgd
      rw [h1] at ho'
      injection ho' with ho'
      injection ho' with ho'
      subst ho'
      rw [h2] at hlb'
      injection hlb' with hlb'
      injection hlb' with hlb'
      subst hlb'
      obtain ⟨s', hs', heq⟩ := List.mem_map.mp h3
      injection heq with heq
      subst heq
      rw [henum4 s' hs'] at h4
      simp at h4
  · intro env fuel text attempt slept body e henv hval
    rw [analyzeAux_step_resp env fuel text attempt slept body henv, hval]
  · intro c total resume idx row st hres hshort hc
    have hrec : recordFor c idx row = failedRecord idx row := by
      simp [recordFor, hshort, hc]
    refine ⟨?_, rfl⟩
    unfold stepRecord
    rw [if_neg (by omega)]
    split_ifs <;> simp [hrec]

/-- Witness for C5: the well-formed body validates whole; the same body with
one undeclared extra top-level field is rejected; a body whose only flaw is
one out-of-set enum value nested in `coppa_analysis.consent_methods` is
rejected; an absent adapter result on a well-formed 100-character row yields
the `"analysis_failed"` record. -/
theorem C5_schema_strict_witness :
    validate (.jobj goodFields) = .ok goodResult ∧
    (∀ p ∈ goodFields, resultKeys.contains p.1 = true) ∧
    validate (.jobj extraFieldBody) = .error (.extraField "privacy_compliance_score") ∧
    coppaConsentMethods.contains "carrier_pigeon" = false ∧
    (∃ e, validate (.jobj badEnumBody) = .error e) ∧
    isShortPolicy row100.policy_text = false ∧
    (stepRecord (fun _ _ => none) 2 0 ⟨[], none, []⟩ 1 row100).results
      = [failedRecord 1 row100] := by
  have h := C5_schema_strict
  have hshort : isShortPolicy row100.policy_text = false := by
    show decide ((pyStrip (List.replicate 100 'a')).length < 100) = false
    rw [pyStrip_replicate, List.length_replicate]
    decide
  have hbad := h.2.1 badEnumBody badEnumCoppa [.jstr "carrier_pigeon"] "carrier_pigeon"
    rfl rfl (List.mem_singleton.mpr rfl) rfl
  have hstep := h.2.2.2.2.2.2 (fun _ _ => none) 2 0 1 row100 ⟨[], none, []⟩
    (by omega) hshort rfl
  exact ⟨validate_good, (h.1 goodFields goodResult validate_good).1, rfl, rfl,
    hbad, hshort, by simpa using hstep.1⟩

/-- Witness for C9 at the fully-absent analysis. -/
theorem C9_flatten_total_witness :
    RawAnalysis.empty.coppa_analysis = none ∧
    extract_coppa_fields RawAnalysis.empty = empty_coppa_fields ∧
    (successRecord 0 row100 RawAnalysis.empty).third_party_data_shared = "" := by
  have h := C9_flatten_total 0 row100 RawAnalysis.empty
  exact ⟨rfl, h.1 rfl, (h.2.2.1 (Or.inl rfl)).1⟩

end PPA


